import Mathlib

/-!
Verification of the streaming/session core of the Synology Surveillance
Station desktop client: the WebSocket frame de-framer
(`services/ws_bridge.py`), the session-aware API client
(`api/client.py`), and the auth flow (`api/auth.py`), shallowly embedded
in Lean 4.  Byte strings are modelled as `List Nat`, the vendor HTTP
endpoint as an explicit script of responses consumed in order, and every
outgoing request is recorded in a trace so that retry/re-login behaviour
can be stated and proved.
-/

namespace Surveillance

/-! ## Frame de-framer (`WebSocketBridge._extract_payload`) -/

/-- Python `bytes.startswith` / structural comparison used by substring
containment: `startsWith t l` iff `t` is an initial segment of `l`. -/
def startsWith : List Nat → List Nat → Bool
  | [], _ => true
  | _ :: _, [] => false
  | a :: as, b :: bs => a == b && startsWith as bs

/-- Python `t in h` on `bytes`: substring containment. -/
def hasToken (t : List Nat) : List Nat → Bool
  | [] => startsWith t []
  | b :: bs => startsWith t (b :: bs) || hasToken t bs

/-- ASCII bytes of a string literal (all source tokens are ASCII). -/
def asciiBytes (s : String) : List Nat :=
  s.toList.map Char.toNat

/-- The header token marking audio frames: `b"mediaType=2"`. -/
def mediaType2Tok : List Nat := asciiBytes "mediaType=2"

/-- The header token marking a stream-close control message: `b"close="`. -/
def closeTok : List Nat := asciiBytes "close="

/-- The Annex-B start code `b"\x00\x00\x00\x01"` prepended to payloads. -/
def startCode : List Nat := [0, 0, 0, 1]

/-- `struct.unpack(">I", message[:4])`: big-endian unsigned 32-bit read of
the first four bytes (callers pass exactly 4 bytes). -/
def beU32of (bs : List Nat) : Nat :=
  bs.foldl (fun acc b => acc * 256 + b) 0

/-- `WebSocketBridge._extract_payload` from `services/ws_bridge.py`:
strip the vendor framing `[4-byte BE header_len][ASCII header][payload]`
from one WebSocket message, returning `none` (a drop) for malformed
messages, audio frames (`mediaType=2`), control messages (`close=`) and
empty payloads, and otherwise the payload with the Annex-B start code
prepended. -/
def extract_payload (message : List Nat) : Option (List Nat) :=
  if message.length < 4 then none
  else
    let hdr_len := beU32of (message.take 4)
    if 4 + hdr_len > message.length then none
    else
      let header := (message.drop 4).take hdr_len
      let payload := message.drop (4 + hdr_len)
      if hasToken mediaType2Tok header || hasToken closeTok header then none
      else if payload = [] then none
      else some (startCode ++ payload)

/-- The drop condition exactly as the specification words it: message too
short, header overruns the message, header contains `mediaType=2`, header
contains `close=`, or the payload slice is empty. -/
def deframerDrops (message : List Nat) : Bool :=
  decide (message.length < 4) ||
  decide (4 + beU32of (message.take 4) > message.length) ||
  hasToken mediaType2Tok ((message.drop 4).take (beU32of (message.take 4))) ||
  hasToken closeTok ((message.drop 4).take (beU32of (message.take 4))) ||
  decide (message.drop (4 + beU32of (message.take 4)) = [])

/-! ## API session model (`api/client.py`, `api/auth.py`)

The vendor endpoint is modelled as a script of responses consumed one per
HTTP GET; each GET is also recorded in a trace, so retry and re-login
behaviour of `request` can be stated exactly. -/

/-- `ApiInfo` from `api/models.py`: per-API-name endpoint record. -/
structure ApiInfo where
  path : String
  min_version : Int
  max_version : Int
deriving DecidableEq, Repr

/-- The mutable state of a `SurveillanceAPI` object that the session core
reads and writes: session id, cached credentials, discovered API table. -/
structure ApiState where
  sid : String
  username : String
  password : String
  apiInfo : List (String × ApiInfo)
deriving DecidableEq, Repr

/-- JSON `data` object, reduced to the string fields the core reads
(`data.get("sid", "")`). -/
structure JsonData where
  fields : List (String × String)
deriving DecidableEq, Repr

/-- Python `data.get(key, "")`. -/
def JsonData.getStr (d : JsonData) (k : String) : String :=
  ((d.fields.find? (fun p => p.1 == k)).map Prod.snd).getD ""

/-- One HTTP response from the vendor, as the client observes it:
either a transport/HTTP-status failure (`httpx` raises, `raise_for_status`
throws) or a parsed JSON envelope `\x7bsuccess, error.code?, data?\x7d`. -/
inductive VendorResponse where
  | httpFail
  | envelope (success : Bool) (errCode : Option Int) (data : Option JsonData)
deriving DecidableEq, Repr

/-- The exception taxonomy of the core.  `sessionExpired` subclasses
`AuthError` in the source (`class SessionExpiredError(AuthError)`), which
`isAuthErr` reflects.  `otpRequired` models the `OtpRequiredError` class
that `ui/login.py` imports from `api/client.py`. -/
inductive PyErr where
  | apiError (code : Int)
  | transportError
  | authError (msg : String)
  | sessionExpired (msg : String) (cause : Option PyErr)
  | otpRequired (code : Int)

/-- Python `isinstance(e, AuthError)`: true for `AuthError` and its
subclass `SessionExpiredError`, false for `ApiError`, transport errors and
`OtpRequiredError` (a separate class in `api/client.py`). -/
def isAuthErr : PyErr → Bool
  | .authError _ => true
  | .sessionExpired _ _ => true
  | _ => false

/-- Observable events of one run: each HTTP GET issued by `raw_request`
(with the api name and the full query parameters) and each entry into
`login`. -/
inductive Event where
  | rawReq (api : String) (params : List (String × String))
  | loginCall (username password : String)
deriving DecidableEq, Repr

/-- The world a run interacts with: the script of vendor responses still
to be consumed, and the trace of events emitted so far. -/
structure World where
  responses : List VendorResponse
  trace : List Event
deriving DecidableEq, Repr

/-- `SESSION_ERRORS = \x7b105, 106, 107, 119\x7d` from `api/client.py`. -/
def SESSION_ERRORS : List Int := [105, 106, 107, 119]

/-- `self._api_info.get(api_name)`. -/
def getApiInfo (s : ApiState) (api_name : String) : Option ApiInfo :=
  (s.apiInfo.find? (fun p => p.1 == api_name)).map Prod.snd

/-- `SurveillanceAPI._get_api_version`: `min(requested, max)` if info is
known and `requested` is truthy; `max` if info is known; else
`requested or 1`.  `requested : Option Int` models `int | None`, with
Python truthiness `requested is not None and requested != 0`. -/
def getApiVersion (s : ApiState) (api_name : String) (requested : Option Int) : Int :=
  match getApiInfo s api_name, requested with
  | some info, some r => if r ≠ 0 then min r info.max_version else info.max_version
  | some info, none => info.max_version
  | none, some r => if r ≠ 0 then r else 1
  | none, none => 1

/-- The query-parameter set built by `raw_request`: `api`, `version`,
`method`, then `_sid` exactly when the stored session id is non-empty,
then the caller's extra parameters. -/
def buildParams (sid api method : String) (ver : Int) (extra : List (String × String)) :
    List (String × String) :=
  [("api", api), ("version", toString ver), ("method", method)]
    ++ (if sid = "" then [] else [("_sid", sid)])
    ++ extra

/-- `SurveillanceAPI.raw_request`: resolve version, build parameters,
perform one GET (consume one scripted response, record the event), then
either raise a transport error, raise `ApiError(code)` on a
`success=false` envelope (code defaulting to 100), or return the `data`
field (defaulting to an empty object).  The `ApiState` is not mutated. -/
def rawRequest (s : ApiState) (w : World) (api method : String) (version : Int)
    (extra : List (String × String)) : Except PyErr JsonData × World :=
  let ver := getApiVersion s api (some version)
  let params := buildParams s.sid api method ver extra
  match w.responses with
  | [] =>
      (Except.error PyErr.transportError,
        { responses := [], trace := w.trace ++ [Event.rawReq api params] })
  | r :: rest =>
      let w2 : World := { responses := rest, trace := w.trace ++ [Event.rawReq api params] }
      match r with
      | .httpFail => (Except.error PyErr.transportError, w2)
      | .envelope success errCode data =>
          if success then (Except.ok (data.getD ⟨[]⟩), w2)
          else (Except.error (PyErr.apiError (errCode.getD 100)), w2)

/-- `login` from `api/auth.py`: one `raw_request` to `SYNO.API.Auth`
`Login` (version 6); on success with a non-empty `sid` in `data`, store
sid and credentials and return the sid; on success without a sid raise
`AuthError`; any error from `raw_request` propagates unchanged.  The
state is mutated only on the success path. -/
def loginA (s : ApiState) (w : World) (username password : String) :
    Except PyErr String × ApiState × World :=
  let w1 : World := { w with trace := w.trace ++ [Event.loginCall username password] }
  match rawRequest s w1 "SYNO.API.Auth" "Login" 6
      [("account", username), ("passwd", password),
       ("session", "SurveillanceStation"), ("format", "sid")] with
  | (Except.error e, w2) => (Except.error e, s, w2)
  | (Except.ok data, w2) =>
      let sid := data.getStr "sid"
      if sid = "" then
        (Except.error (PyErr.authError "Login succeeded but no SID returned"), s, w2)
      else
        (Except.ok sid, { s with sid := sid, username := username, password := password }, w2)

/-- `logout` from `api/auth.py`: no-op when no session id is stored;
otherwise one `raw_request` to `SYNO.API.Auth` `Logout` whose outcome is
swallowed (`except Exception: pass`), with the session id unconditionally
cleared in the `finally` block.  Total: it never raises. -/
def logoutA (s : ApiState) (w : World) : ApiState × World :=
  if s.sid = "" then (s, w)
  else
    ({ s with sid := "" },
      (rawRequest s w "SYNO.API.Auth" "Logout" 6 [("session", "SurveillanceStation")]).2)

/-- `SurveillanceAPI.request`: one `raw_request`; on `ApiError` with a
code in `SESSION_ERRORS` while both stored username and password are
non-empty, one `login`; if that login raises an `AuthError`-kind error,
raise `SessionExpiredError("Re-login failed")` chained from the original
error; if it raises anything else, that error propagates; if it succeeds,
one retried `raw_request` whose outcome (success or failure) is final.
Any other error from the first `raw_request` propagates unchanged. -/
def request (s : ApiState) (w : World) (api method : String) (version : Int)
    (extra : List (String × String)) : Except PyErr JsonData × ApiState × World :=
  match rawRequest s w api method version extra with
  | (Except.ok d, w1) => (Except.ok d, s, w1)
  | (Except.error e, w1) =>
      match e with
      | PyErr.apiError code =>
          if SESSION_ERRORS.contains code ∧ s.username ≠ "" ∧ s.password ≠ "" then
            match loginA s w1 s.username s.password with
            | (Except.error f, s2, w2) =>
                if isAuthErr f then
                  (Except.error (PyErr.sessionExpired "Re-login failed" (some e)), s2, w2)
                else (Except.error f, s2, w2)
            | (Except.ok _, s2, w2) =>
                let rr := rawRequest s2 w2 api method version extra
                (rr.1, s2, rr.2)
          else (Except.error e, s, w1)
      | _ => (Except.error e, s, w1)

/-- The exact query parameters of the vendor auth `Login` GET that
`login` issues from state `s` with credentials `u`/`p`. -/
def loginParams (s : ApiState) (u p : String) : List (String × String) :=
  buildParams s.sid "SYNO.API.Auth" "Login" (getApiVersion s "SYNO.API.Auth" (some 6))
    [("account", u), ("passwd", p), ("session", "SurveillanceStation"), ("format", "sid")]

/-- Whether an `Except` result is a success. -/
def isOkE : Except PyErr String → Bool
  | .ok _ => true
  | .error _ => false

/-- The number of `login` entries recorded in a trace. -/
def countLogins (es : List Event) : Nat :=
  (es.filter fun e => match e with | .loginCall _ _ => true | _ => false).length

/-- The number of GETs recorded in a trace for a given api name. -/
def countApiReq (api : String) (es : List Event) : Nat :=
  (es.filter fun e => match e with | .rawReq a _ => a == api | _ => false).length

/-- `resolve_version` exactly as the specification words it: with known
endpoint-info and a truthy requested version, `min(requested, max)`; with
known endpoint-info and no requested version, `max`; with no
endpoint-info, the requested version, or 1 when it is falsy/zero. -/
def resolveVersionSpec (info : Option ApiInfo) (requested : Option Int) : Int :=
  let truthy : Bool := match requested with | none => false | some r => r != 0
  match info with
  | some i => if truthy then min (requested.getD 0) i.max_version else i.max_version
  | none => if truthy then requested.getD 0 else 1

/-! ## OTP-aware login (missing from the source snapshot)

`ui/login.py` imports `OtpRequiredError` from `api/client.py` and calls
`login` with `otp_code`/`device_id`/`device_name`/`enable_device_token`
arguments, but the snapshot's `api/client.py` and `api/auth.py` contain
neither the class nor those parameters; the OTP branch of the auth flow is
therefore modelled from the specification. -/

/-- Modelled from the spec: the vendor error codes that signal the OTP
branch ("need first OTP" vs "OTP rejected, retry"); `ui/login.py`
distinguishes `OtpRequiredError` with code 404 (invalid OTP) from other
`OtpRequiredError` codes (OTP required). -/
def OTP_CODES : List Int := [403, 404]

/-- Modelled from the spec: the OTP-aware `login` of the auth flow,
missing from the snapshot's `api/auth.py`.  It calls the vendor auth API
with the OTP code attached when one is supplied; if the vendor signals
OTP-required (an error code in `OTP_CODES`), it surfaces
`OtpRequiredError` carrying that vendor code — an expected branch of the
login flow, not a plain `ApiError` or `AuthError`; otherwise it behaves
as the snapshot's `login`. -/
def loginOtp (s : ApiState) (w : World) (username password otp_code : String) :
    Except PyErr String × ApiState × World :=
  let w1 : World := { w with trace := w.trace ++ [Event.loginCall username password] }
  match rawRequest s w1 "SYNO.API.Auth" "Login" 6
      ([("account", username), ("passwd", password),
        ("session", "SurveillanceStation"), ("format", "sid")]
       ++ (if otp_code = "" then [] else [("otp_code", otp_code)])) with
  | (Except.error (PyErr.apiError code), w2) =>
      if OTP_CODES.contains code then (Except.error (PyErr.otpRequired code), s, w2)
      else (Except.error (PyErr.apiError code), s, w2)
  | (Except.error e, w2) => (Except.error e, s, w2)
  | (Except.ok data, w2) =>
      let sid := data.getStr "sid"
      if sid = "" then
        (Except.error (PyErr.authError "Login succeeded but no SID returned"), s, w2)
      else
        (Except.ok sid, { s with sid := sid, username := username, password := password }, w2)

/-! ## Stream bridge lifecycle (`WebSocketBridge` state, `stop`) -/

/-- The state of one `WebSocketBridge` object together with the pieces of
the filesystem it owns: `_fifo_path` and `_tmp_dir` attributes, whether a
pump task is held (`self._pump_task is not None`), and whether the FIFO
file and the temp directory exist on disk (`os.path.exists` /
`os.path.isdir`). -/
structure BridgeState where
  fifo_path : String
  tmp_dir : String
  pumpTask : Bool
  fifoOnDisk : Bool
  tmpOnDisk : Bool
deriving DecidableEq, Repr

/-- `WebSocketBridge.__init__`: empty paths, no task, nothing on disk. -/
def initBridge : BridgeState :=
  { fifo_path := "", tmp_dir := "", pumpTask := false,
    fifoOnDisk := false, tmpOnDisk := false }

/-- `WebSocketBridge.start`: `mkdtemp` a temp directory, `mkfifo` the
FIFO inside it, hold the created pump task. -/
def startBridge (b : BridgeState) (tmp : String) : BridgeState :=
  { b with
    tmp_dir := tmp, fifo_path := tmp ++ "/stream.ts",
    fifoOnDisk := true, tmpOnDisk := true, pumpTask := true }

/-- `WebSocketBridge.stop`: if a pump task is held, cancel and await it
(exceptions suppressed) and drop it; if `_fifo_path` is non-empty and the
FIFO exists, attempt `os.unlink` inside `contextlib.suppress(OSError)`
and clear `_fifo_path` regardless; if `_tmp_dir` is non-empty and the
directory exists, attempt `os.rmdir` inside `suppress(OSError)` and clear
`_tmp_dir` regardless.  `unlinkOk`/`rmdirOk` say whether the respective
OS call succeeded: on a suppressed `OSError` the file or directory stays
on disk while the attribute is still cleared.  The read-open/close used
to unblock a writer has no persistent effect and is omitted. -/
def stopBridge (b : BridgeState) (unlinkOk rmdirOk : Bool) : BridgeState :=
  let b1 := if b.pumpTask then { b with pumpTask := false } else b
  let b2 :=
    if b1.fifo_path ≠ "" ∧ b1.fifoOnDisk then
      { b1 with fifoOnDisk := if unlinkOk then false else b1.fifoOnDisk, fifo_path := "" }
    else b1
  if b2.tmp_dir ≠ "" ∧ b2.tmpOnDisk then
    { b2 with tmpOnDisk := if rmdirOk then false else b2.tmpOnDisk, tmp_dir := "" }
  else b2

end Surveillance

namespace Surveillance

/-- C1: `_extract_payload` drops a message exactly under the five spec
conditions, and otherwise returns the Annex-B start code prepended to the
payload slice `message[4+header_len:]`. -/
theorem extract_payload_spec (message : List Nat) :
    extract_payload message =
      if deframerDrops message then none
      else some (startCode ++ message.drop (4 + beU32of (message.take 4))) := by
  unfold extract_payload deframerDrops
  by_cases h1 : message.length < 4
  · simp [h1]
  · by_cases h2 : 4 + beU32of (message.take 4) > message.length
    · simp [h1, h2]
    · by_cases h3 :
        hasToken mediaType2Tok ((message.drop 4).take (beU32of (message.take 4))) = true
      · simp [h1, h2, h3]
      · by_cases h4 :
          hasToken closeTok ((message.drop 4).take (beU32of (message.take 4))) = true
        · simp [h1, h2, h3, h4]
        · by_cases h5 : message.drop (4 + beU32of (message.take 4)) = []
          · simp [h1, h2, h3, h4, h5]
          · simp [h1, h2, h3, h4, h5]

end Surveillance

namespace Surveillance

/-! ### Helper evaluation lemmas for the request/auth machinery -/

/-- Whatever the scripted response, `raw_request` records exactly one GET
with the parameters built by `buildParams` from the stored session id. -/
theorem rawRequest_trace (s : ApiState) (w : World) (api method : String) (version : Int)
    (extra : List (String × String)) :
    (rawRequest s w api method version extra).2.trace =
      w.trace ++ [Event.rawReq api
        (buildParams s.sid api method (getApiVersion s api (some version)) extra)] := by
  unfold rawRequest
  rcases hw : w.responses with _ | ⟨r, rest⟩
  · simp
  · cases r with
    | httpFail => simp
    | envelope success errCode data => cases success <;> simp

/-- `raw_request` on a `success=false` envelope raises `ApiError` with the
envelope's code (default 100). -/
theorem rawRequest_err_eval (s : ApiState) (w : World) (api method : String) (version : Int)
    (extra : List (String × String)) (ec : Option Int) (d : Option JsonData)
    (rest : List VendorResponse)
    (hw : w.responses = VendorResponse.envelope false ec d :: rest) :
    rawRequest s w api method version extra =
      (Except.error (PyErr.apiError (ec.getD 100)),
        { responses := rest,
          trace := w.trace ++ [Event.rawReq api
            (buildParams s.sid api method (getApiVersion s api (some version)) extra)] }) := by
  unfold rawRequest
  rw [hw]
  simp

/-- `raw_request` on a `success=true` envelope returns the `data` field
(default: empty object). -/
theorem rawRequest_ok_eval (s : ApiState) (w : World) (api method : String) (version : Int)
    (extra : List (String × String)) (ec : Option Int) (d : Option JsonData)
    (rest : List VendorResponse)
    (hw : w.responses = VendorResponse.envelope true ec d :: rest) :
    rawRequest s w api method version extra =
      (Except.ok (d.getD ⟨[]⟩),
        { responses := rest,
          trace := w.trace ++ [Event.rawReq api
            (buildParams s.sid api method (getApiVersion s api (some version)) extra)] }) := by
  unfold rawRequest
  rw [hw]
  simp

/-- `raw_request` on a transport/HTTP failure raises a transport error. -/
theorem rawRequest_httpfail_eval (s : ApiState) (w : World) (api method : String)
    (version : Int) (extra : List (String × String)) (rest : List VendorResponse)
    (hw : w.responses = VendorResponse.httpFail :: rest) :
    rawRequest s w api method version extra =
      (Except.error PyErr.transportError,
        { responses := rest,
          trace := w.trace ++ [Event.rawReq api
            (buildParams s.sid api method (getApiVersion s api (some version)) extra)] }) := by
  unfold rawRequest
  rw [hw]

/-- `raw_request` with an exhausted response script is a transport
failure. -/
theorem rawRequest_empty_eval (s : ApiState) (w : World) (api method : String)
    (version : Int) (extra : List (String × String))
    (hw : w.responses = []) :
    rawRequest s w api method version extra =
      (Except.error PyErr.transportError,
        { responses := [],
          trace := w.trace ++ [Event.rawReq api
            (buildParams s.sid api method (getApiVersion s api (some version)) extra)] }) := by
  unfold rawRequest
  rw [hw]

/-- `login` when the vendor auth call answers `success=false`: the
`ApiError` propagates unchanged and the state is untouched. -/
theorem loginA_apierr_eval (s : ApiState) (w : World) (u p : String) (ec : Option Int)
    (d : Option JsonData) (rest : List VendorResponse)
    (hw : w.responses = VendorResponse.envelope false ec d :: rest) :
    loginA s w u p =
      (Except.error (PyErr.apiError (ec.getD 100)), s,
        { responses := rest,
          trace := w.trace ++ [Event.loginCall u p,
            Event.rawReq "SYNO.API.Auth" (loginParams s u p)] }) := by
  have hr := rawRequest_err_eval s
      { responses := w.responses, trace := w.trace ++ [Event.loginCall u p] }
      "SYNO.API.Auth" "Login" 6
      [("account", u), ("passwd", p), ("session", "SurveillanceStation"), ("format", "sid")]
      ec d rest (by simpa using hw)
  simp [loginA, hr, loginParams]

/-- `login` when the vendor auth call fails at transport level. -/
theorem loginA_httpfail_eval (s : ApiState) (w : World) (u p : String)
    (rest : List VendorResponse)
    (hw : w.responses = VendorResponse.httpFail :: rest) :
    loginA s w u p =
      (Except.error PyErr.transportError, s,
        { responses := rest,
          trace := w.trace ++ [Event.loginCall u p,
            Event.rawReq "SYNO.API.Auth" (loginParams s u p)] }) := by
  have hr := rawRequest_httpfail_eval s
      { responses := w.responses, trace := w.trace ++ [Event.loginCall u p] }
      "SYNO.API.Auth" "Login" 6
      [("account", u), ("passwd", p), ("session", "SurveillanceStation"), ("format", "sid")]
      rest (by simpa using hw)
  simp [loginA, hr, loginParams]

/-- `login` with an exhausted response script. -/
theorem loginA_empty_eval (s : ApiState) (w : World) (u p : String)
    (hw : w.responses = []) :
    loginA s w u p =
      (Except.error PyErr.transportError, s,
        { responses := [],
          trace := w.trace ++ [Event.loginCall u p,
            Event.rawReq "SYNO.API.Auth" (loginParams s u p)] }) := by
  have hr := rawRequest_empty_eval s
      { responses := w.responses, trace := w.trace ++ [Event.loginCall u p] }
      "SYNO.API.Auth" "Login" 6
      [("account", u), ("passwd", p), ("session", "SurveillanceStation"), ("format", "sid")]
      (by simpa using hw)
  simp [loginA, hr, loginParams]

/-- `login` on a successful auth response whose data lacks a non-empty
`sid`: raises `AuthError` and leaves the state unchanged. -/
theorem loginA_nosid_eval (s : ApiState) (w : World) (u p : String) (ec : Option Int)
    (d : Option JsonData) (rest : List VendorResponse)
    (hw : w.responses = VendorResponse.envelope true ec d :: rest)
    (hsid : (d.getD ⟨[]⟩).getStr "sid" = "") :
    loginA s w u p =
      (Except.error (PyErr.authError "Login succeeded but no SID returned"), s,
        { responses := rest,
          trace := w.trace ++ [Event.loginCall u p,
            Event.rawReq "SYNO.API.Auth" (loginParams s u p)] }) := by
  have hr := rawRequest_ok_eval s
      { responses := w.responses, trace := w.trace ++ [Event.loginCall u p] }
      "SYNO.API.Auth" "Login" 6
      [("account", u), ("passwd", p), ("session", "SurveillanceStation"), ("format", "sid")]
      ec d rest (by simpa using hw)
  simp [loginA, hr, loginParams, hsid]

/-- `login` on a successful auth response carrying a non-empty `sid`:
returns the sid and stores sid and credentials. -/
theorem loginA_ok_eval (s : ApiState) (w : World) (u p : String) (ec : Option Int)
    (d : Option JsonData) (rest : List VendorResponse)
    (hw : w.responses = VendorResponse.envelope true ec d :: rest)
    (hsid : (d.getD ⟨[]⟩).getStr "sid" ≠ "") :
    loginA s w u p =
      (Except.ok ((d.getD ⟨[]⟩).getStr "sid"),
        { s with sid := (d.getD ⟨[]⟩).getStr "sid", username := u, password := p },
        { responses := rest,
          trace := w.trace ++ [Event.loginCall u p,
            Event.rawReq "SYNO.API.Auth" (loginParams s u p)] }) := by
  have hr := rawRequest_ok_eval s
      { responses := w.responses, trace := w.trace ++ [Event.loginCall u p] }
      "SYNO.API.Auth" "Login" 6
      [("account", u), ("passwd", p), ("session", "SurveillanceStation"), ("format", "sid")]
      ec d rest (by simpa using hw)
  simp [loginA, hr, loginParams, hsid]

/-! ### C5: version resolution -/

/-- C5: `_get_api_version` returns `min(requested, max_version)` when
endpoint-info is known and a version was requested (truthy); the
`max_version` when endpoint-info is known and no version was requested;
and with no endpoint-info the requested version, or 1 when it is
falsy/zero — exactly the specification's `resolve_version`. -/
theorem get_api_version_spec (s : ApiState) (api_name : String) (requested : Option Int) :
    getApiVersion s api_name requested = resolveVersionSpec (getApiInfo s api_name) requested := by
  unfold getApiVersion resolveVersionSpec
  rcases h : getApiInfo s api_name with _ | info <;> rcases requested with _ | r
  · simp [h]
  · by_cases hr : r = 0 <;> simp [h, hr]
  · simp [h]
  · by_cases hr : r = 0 <;> simp [h, hr]

/-! ### C7: logout best-effort semantics -/

/-- C7: `logout` is best-effort: with an empty stored session id it is a
no-op (state and world unchanged, no GET issued); after any `logout` the
session id is `""` whatever the network outcome (the vendor call's result
is swallowed); a second `logout` in a row changes nothing further and
never raises (it is a total function of the state); and with a non-empty
stored session id it does call the vendor logout method: the trace gains
exactly the `SYNO.API.Auth` `Logout` GET. -/
theorem logout_best_effort (s : ApiState) (w : World) :
    ((logoutA s w).1).sid = "" ∧
    logoutA { s with sid := "" } w = ({ s with sid := "" }, w) ∧
    logoutA (logoutA s w).1 (logoutA s w).2 = logoutA s w ∧
    (s.sid ≠ "" → (logoutA s w).2.trace =
      w.trace ++ [Event.rawReq "SYNO.API.Auth"
        (buildParams s.sid "SYNO.API.Auth" "Logout" (getApiVersion s "SYNO.API.Auth" (some 6))
          [("session", "SurveillanceStation")])]) := by
  refine ⟨?_, ?_, ?_, ?_⟩
  · by_cases h : s.sid = "" <;> simp [logoutA, h]
  · simp [logoutA]
  · by_cases h : s.sid = "" <;> simp [logoutA, h]
  · intro h
    simp [logoutA, h, rawRequest_trace]

/-- Witness for C7 at a non-empty stored session id: the vendor logout
GET is recorded in the trace. -/
theorem logout_best_effort_witness :
    (⟨"ABC", "u", "p", []⟩ : ApiState).sid ≠ "" ∧
    (logoutA ⟨"ABC", "u", "p", []⟩ ⟨[], []⟩).2.trace =
      [] ++ [Event.rawReq "SYNO.API.Auth"
        (buildParams "ABC" "SYNO.API.Auth" "Logout"
          (getApiVersion ⟨"ABC", "u", "p", []⟩ "SYNO.API.Auth" (some 6))
          [("session", "SurveillanceStation")])] :=
  ⟨by decide, (logout_best_effort ⟨"ABC", "u", "p", []⟩ ⟨[], []⟩).2.2.2 (by decide)⟩

/-! ### C9: bridge stop idempotence -/

/-- The FIFO path created by `start` is never the empty string. -/
theorem fifo_path_nonempty (tmp : String) : tmp ++ "/stream.ts" ≠ "" := by
  intro h
  have h2 := congrArg String.length h
  simp [String.length_append] at h2
  exact absurd h2.2 (by decide)

/-- C9: `stop` is idempotent and safe out of order, whatever the outcome
of the suppressed OS calls: stopping twice is the same as stopping once
for every bridge state and every `OSError` outcome; stopping a bridge
that was never started is a harmless no-op; after any stop no pump task
is held; stopping a started bridge always clears the `_fifo_path` and
`_tmp_dir` attributes; and when the attempted `os.unlink`/`os.rmdir`
succeed, the FIFO and the temp directory are released on disk too, back
to the pristine state (stop never raises: it is a total function of the
state). -/
theorem bridge_stop_idempotent (b : BridgeState) (tmp : String) (u r u2 r2 : Bool)
    (htmp : tmp ≠ "") :
    stopBridge (stopBridge b u r) u2 r2 = stopBridge b u r ∧
    stopBridge initBridge u r = initBridge ∧
    (stopBridge b u r).pumpTask = false ∧
    (stopBridge (startBridge initBridge tmp) u r).pumpTask = false ∧
    (stopBridge (startBridge initBridge tmp) u r).fifo_path = "" ∧
    (stopBridge (startBridge initBridge tmp) u r).tmp_dir = "" ∧
    stopBridge (startBridge initBridge tmp) true true = initBridge ∧
    stopBridge (stopBridge (startBridge initBridge tmp) true true) u r = initBridge := by
  have hno : stopBridge initBridge u r = initBridge := by
    simp [stopBridge, initBridge]
  have hrel : stopBridge (startBridge initBridge tmp) true true = initBridge := by
    simp [stopBridge, startBridge, initBridge, fifo_path_nonempty tmp, htmp]
  refine ⟨?_, hno, ?_, ?_, ?_, ?_, hrel, ?_⟩
  · unfold stopBridge
    cases hp : b.pumpTask <;>
      by_cases h2 : b.fifo_path ≠ "" ∧ b.fifoOnDisk <;>
        by_cases h3 : b.tmp_dir ≠ "" ∧ b.tmpOnDisk <;>
          cases u <;> cases r <;> simp [hp, h2, h3]
  · unfold stopBridge
    cases hp : b.pumpTask <;>
      by_cases h2 : b.fifo_path ≠ "" ∧ b.fifoOnDisk <;>
        by_cases h3 : b.tmp_dir ≠ "" ∧ b.tmpOnDisk <;>
          simp [hp, h2, h3]
  · simp [stopBridge, startBridge, initBridge, fifo_path_nonempty tmp, htmp]
  · simp [stopBridge, startBridge, initBridge, fifo_path_nonempty tmp, htmp]
  · simp [stopBridge, startBridge, initBridge, fifo_path_nonempty tmp, htmp]
  · rw [hrel]
    exact hno

/-- Witness for C9 at a concrete temp directory, with the first stop's OS
calls failing (suppressed `OSError`) and the second stop's succeeding. -/
theorem bridge_stop_idempotent_witness :
    ("/tmp/surveillance-ws-x" : String) ≠ "" ∧
    stopBridge (stopBridge (startBridge initBridge "/tmp/surveillance-ws-x") false false)
        true true =
      stopBridge (startBridge initBridge "/tmp/surveillance-ws-x") false false :=
  ⟨by decide,
    (bridge_stop_idempotent (startBridge initBridge "/tmp/surveillance-ws-x")
      "/tmp/surveillance-ws-x" false false true true (by decide)).1⟩

/-! ### C4: no retry outside the session-error set or without credentials -/

/-- C4: when the first `raw_request` fails with an `ApiError` whose code
is outside the session-error set, or with any `ApiError` while a stored
credential (username or password) is empty, `request` raises that same
error immediately: the state is untouched and the trace records exactly
one GET and no re-login attempt. -/
theorem request_no_retry (s : ApiState) (w : World) (api method : String)
    (version : Int) (extra : List (String × String)) (ec : Option Int)
    (d : Option JsonData) (rest : List VendorResponse)
    (hw : w.responses = VendorResponse.envelope false ec d :: rest)
    (hne : ¬ (SESSION_ERRORS.contains (ec.getD 100) = true ∧ s.username ≠ "" ∧ s.password ≠ "")) :
    request s w api method version extra =
      (Except.error (PyErr.apiError (ec.getD 100)), s,
        { responses := rest,
          trace := w.trace ++ [Event.rawReq api
            (buildParams s.sid api method (getApiVersion s api (some version)) extra)] }) := by
  have hr := rawRequest_err_eval s w api method version extra ec d rest hw
  simp only [request, hr]
  rw [if_neg]
  intro h
  exact hne ⟨by exact_mod_cast h.1, h.2.1, h.2.2⟩

/-- Witness for C4: vendor code 400 with credentials cached — the error
propagates unchanged, with one GET and no login in the trace. -/
theorem request_no_retry_witness :
    ¬ (SESSION_ERRORS.contains ((some (400 : Int)).getD 100) = true ∧
        ("u" : String) ≠ "" ∧ ("p" : String) ≠ "") ∧
    request ⟨"", "u", "p", []⟩
        ⟨[VendorResponse.envelope false (some 400) none], []⟩ "CAM" "List" 1 [] =
      (Except.error (PyErr.apiError 400), ⟨"", "u", "p", []⟩,
        ⟨[], [Event.rawReq "CAM" (buildParams "" "CAM" "List" 1 [])]⟩) :=
  ⟨by decide,
    request_no_retry ⟨"", "u", "p", []⟩
      ⟨[VendorResponse.envelope false (some 400) none], []⟩ "CAM" "List" 1 []
      (some 400) none [] rfl (by decide)⟩

/-! ### C10: login atomicity on failure -/

/-- C10: when the login response's data lacks a non-empty `sid`, `login`
raises `AuthError` and returns the session state unchanged — stored sid,
username and password keep their prior values (credentials and the new
sid are assigned only on the success branch). -/
theorem login_atomic_on_failure (s : ApiState) (w : World) (u p : String)
    (ec : Option Int) (d : Option JsonData) (rest : List VendorResponse)
    (hw : w.responses = VendorResponse.envelope true ec d :: rest)
    (hsid : (d.getD ⟨[]⟩).getStr "sid" = "") :
    (loginA s w u p).1 =
      Except.error (PyErr.authError "Login succeeded but no SID returned") ∧
    (loginA s w u p).2.1 = s := by
  rw [loginA_nosid_eval s w u p ec d rest hw hsid]
  exact ⟨rfl, rfl⟩

/-- Witness for C10: a login answered without a `sid` leaves the previous
session identifier and credentials in place. -/
theorem login_atomic_on_failure_witness :
    ((some (JsonData.mk [])).getD ⟨[]⟩).getStr "sid" = "" ∧
    ((loginA ⟨"OLD", "olduser", "oldpw", []⟩
        ⟨[VendorResponse.envelope true none (some ⟨[]⟩)], []⟩ "newu" "newp").1 =
      Except.error (PyErr.authError "Login succeeded but no SID returned") ∧
    (loginA ⟨"OLD", "olduser", "oldpw", []⟩
        ⟨[VendorResponse.envelope true none (some ⟨[]⟩)], []⟩ "newu" "newp").2.1 =
      ⟨"OLD", "olduser", "oldpw", []⟩) :=
  ⟨rfl,
    login_atomic_on_failure ⟨"OLD", "olduser", "oldpw", []⟩
      ⟨[VendorResponse.envelope true none (some ⟨[]⟩)], []⟩ "newu" "newp"
      none (some ⟨[]⟩) [] rfl rfl⟩

/-! ### C3: re-login failure and SessionExpiredError -/

/-- C3 counterexample: first response is session error 105 with cached
credentials, and the re-login attempt itself fails with vendor `ApiError`
400 (e.g. rejected credentials).  `request` then raises that `ApiError`
400 — not a `SessionExpiredError` wrapping the original error, contrary
to the claim that a failing re-login always yields `SessionExpiredError`. -/
theorem relogin_failure_counterexample :
    (request ⟨"", "u", "p", []⟩
        ⟨[VendorResponse.envelope false (some 105) none,
          VendorResponse.envelope false (some 400) none], []⟩ "CAM" "List" 1 []).1 =
      Except.error (PyErr.apiError 400) ∧
    (request ⟨"", "u", "p", []⟩
        ⟨[VendorResponse.envelope false (some 105) none,
          VendorResponse.envelope false (some 400) none], []⟩ "CAM" "List" 1 []).1 ≠
      Except.error (PyErr.sessionExpired "Re-login failed" (some (PyErr.apiError 105))) := by
  have h1 : (request ⟨"", "u", "p", []⟩
      ⟨[VendorResponse.envelope false (some 105) none,
        VendorResponse.envelope false (some 400) none], []⟩ "CAM" "List" 1 []).1 =
      Except.error (PyErr.apiError 400) := rfl
  refine ⟨h1, ?_⟩
  rw [h1]
  simp

/-- C3 (amended): when the first `raw_request` fails with a session-error
code, credentials are cached, and the re-login attempt fails with an
`AuthError` (the auth response carries no non-empty `sid`), `request`
raises `SessionExpiredError("Re-login failed")` chained from the original
session error.  (A re-login failing with a vendor `ApiError` or a
transport error instead propagates that error, per the counterexample.) -/
theorem relogin_authfail_session_expired (s : ApiState) (w : World) (api method : String)
    (version : Int) (extra : List (String × String)) (c : Int) (d : Option JsonData)
    (ec : Option Int) (d2 : Option JsonData) (rest : List VendorResponse)
    (hw : w.responses = VendorResponse.envelope false (some c) d ::
                        VendorResponse.envelope true ec d2 :: rest)
    (hc : SESSION_ERRORS.contains c = true)
    (hu : s.username ≠ "") (hp : s.password ≠ "")
    (hsid : (d2.getD ⟨[]⟩).getStr "sid" = "") :
    (request s w api method version extra).1 =
      Except.error (PyErr.sessionExpired "Re-login failed" (some (PyErr.apiError c))) := by
  have hr := rawRequest_err_eval s w api method version extra (some c) d
    (VendorResponse.envelope true ec d2 :: rest) hw
  have hl := loginA_nosid_eval s
    { responses := VendorResponse.envelope true ec d2 :: rest,
      trace := w.trace ++ [Event.rawReq api
        (buildParams s.sid api method (getApiVersion s api (some version)) extra)] }
    s.username s.password ec d2 rest rfl hsid
  have hc2 : c ∈ SESSION_ERRORS := by simpa using hc
  simp [request, hr, hl, hc2, hu, hp, isAuthErr]

/-- Witness for C3 (amended): session error 105, then a login response
with no `sid` — the result is `SessionExpiredError` chaining error 105. -/
theorem relogin_authfail_session_expired_witness :
    SESSION_ERRORS.contains (105 : Int) = true ∧ ("u" : String) ≠ "" ∧ ("p" : String) ≠ "" ∧
    ((some (JsonData.mk [])).getD ⟨[]⟩).getStr "sid" = "" ∧
    (request ⟨"", "u", "p", []⟩
        ⟨[VendorResponse.envelope false (some 105) none,
          VendorResponse.envelope true none (some ⟨[]⟩)], []⟩ "CAM" "List" 1 []).1 =
      Except.error (PyErr.sessionExpired "Re-login failed" (some (PyErr.apiError 105))) :=
  ⟨by decide, by decide, by decide, rfl,
    relogin_authfail_session_expired ⟨"", "u", "p", []⟩
      ⟨[VendorResponse.envelope false (some 105) none,
        VendorResponse.envelope true none (some ⟨[]⟩)], []⟩ "CAM" "List" 1 []
      105 none none (some ⟨[]⟩) [] rfl (by decide) (by decide) (by decide) rfl⟩

/-! ### C2: session-error retry discipline -/

/-- C2 counterexample: first response is session error 105 with cached
credentials, but the re-login fails (auth response carries no `sid`), so
no retried GET is ever issued: the trace holds exactly one GET for the
original api, refuting "exactly one re-login attempt occurs and exactly
one retried `raw_request` occurs" — the retry happens only when the
re-login succeeds. -/
theorem request_retry_counterexample :
    ¬ (countLogins (request ⟨"", "u", "p", []⟩
          ⟨[VendorResponse.envelope false (some 105) none,
            VendorResponse.envelope true none (some ⟨[]⟩)], []⟩ "CAM" "List" 1 []).2.2.trace = 1 ∧
       countApiReq "CAM" (request ⟨"", "u", "p", []⟩
          ⟨[VendorResponse.envelope false (some 105) none,
            VendorResponse.envelope true none (some ⟨[]⟩)], []⟩ "CAM" "List" 1 []).2.2.trace = 2) := by
  decide

/-- C2 (amended): on a session-error response with cached credentials,
exactly one re-login attempt occurs, at most one retried GET for the
original api occurs (so at most two GETs for it in total), and the whole
trace is: the original GET, then the login entry and its auth GET, then —
exactly when the re-login succeeded — one retried GET built from the
post-login state.  The re-login therefore completes strictly before any
retried request, and nothing is ever retried twice. -/
theorem request_retry_amended (s : ApiState) (w : World) (api method : String)
    (version : Int) (extra : List (String × String)) (c : Int) (d : Option JsonData)
    (rest : List VendorResponse)
    (hw : w.responses = VendorResponse.envelope false (some c) d :: rest)
    (ht : w.trace = [])
    (hc : SESSION_ERRORS.contains c = true)
    (hu : s.username ≠ "") (hp : s.password ≠ "")
    (ha : api ≠ "SYNO.API.Auth") :
    countLogins (request s w api method version extra).2.2.trace = 1 ∧
    countApiReq api (request s w api method version extra).2.2.trace ≤ 2 ∧
    (request s w api method version extra).2.2.trace =
      [Event.rawReq api (buildParams s.sid api method (getApiVersion s api (some version)) extra),
       Event.loginCall s.username s.password,
       Event.rawReq "SYNO.API.Auth" (loginParams s s.username s.password)] ++
      (if isOkE (loginA s
            { responses := rest,
              trace := [Event.rawReq api
                (buildParams s.sid api method (getApiVersion s api (some version)) extra)] }
            s.username s.password).1 = true
       then [Event.rawReq api
         (buildParams
           (loginA s
             { responses := rest,
               trace := [Event.rawReq api
                 (buildParams s.sid api method (getApiVersion s api (some version)) extra)] }
             s.username s.password).2.1.sid
           api method
           (getApiVersion
             (loginA s
               { responses := rest,
                 trace := [Event.rawReq api
                   (buildParams s.sid api method (getApiVersion s api (some version)) extra)] }
               s.username s.password).2.1
             api (some version)) extra)]
       else []) := by
  obtain ⟨resp, tr⟩ := w
  simp only at hw ht
  subst hw
  subst ht
  have hc2 : c ∈ SESSION_ERRORS := by simpa using hc
  have hb : (("SYNO.API.Auth" : String) == api) = false := beq_eq_false_iff_ne.mpr (Ne.symm ha)
  have hr := rawRequest_err_eval s
    ⟨VendorResponse.envelope false (some c) d :: rest, []⟩
    api method version extra (some c) d rest rfl
  rcases rest with _ | ⟨r2, rest2⟩
  · have hl := loginA_empty_eval s
      ⟨[], [Event.rawReq api
        (buildParams s.sid api method (getApiVersion s api (some version)) extra)]⟩
      s.username s.password rfl
    simp [request, hr, hl, hc2, hu, hp, isAuthErr, isOkE, countLogins, countApiReq, hb]
  · cases r2 with
    | httpFail =>
        have hl := loginA_httpfail_eval s
          ⟨VendorResponse.httpFail :: rest2, [Event.rawReq api
            (buildParams s.sid api method (getApiVersion s api (some version)) extra)]⟩
          s.username s.password rest2 rfl
        simp [request, hr, hl, hc2, hu, hp, isAuthErr, isOkE, countLogins, countApiReq, hb]
    | envelope succ2 ec2 d2 =>
        cases succ2 with
        | false =>
            have hl := loginA_apierr_eval s
              ⟨VendorResponse.envelope false ec2 d2 :: rest2, [Event.rawReq api
                (buildParams s.sid api method (getApiVersion s api (some version)) extra)]⟩
              s.username s.password ec2 d2 rest2 rfl
            simp [request, hr, hl, hc2, hu, hp, isAuthErr, isOkE, countLogins, countApiReq, hb]
        | true =>
            by_cases hsid : (d2.getD ⟨[]⟩).getStr "sid" = ""
            · have hl := loginA_nosid_eval s
                ⟨VendorResponse.envelope true ec2 d2 :: rest2, [Event.rawReq api
                  (buildParams s.sid api method (getApiVersion s api (some version)) extra)]⟩
                s.username s.password ec2 d2 rest2 rfl hsid
              simp [request, hr, hl, hc2, hu, hp, isAuthErr, isOkE, countLogins, countApiReq, hb]
            · have hl := loginA_ok_eval s
                ⟨VendorResponse.envelope true ec2 d2 :: rest2, [Event.rawReq api
                  (buildParams s.sid api method (getApiVersion s api (some version)) extra)]⟩
                s.username s.password ec2 d2 rest2 rfl hsid
              simp [request, hr, hl, hc2, hu, hp, isAuthErr, isOkE, countLogins,
                countApiReq, hb, rawRequest_trace]

/-- Witness for C2 (amended): a successful re-login scenario; the trace
holds exactly one login entry. -/
theorem request_retry_amended_witness :
    SESSION_ERRORS.contains (105 : Int) = true ∧ ("u" : String) ≠ "" ∧ ("p" : String) ≠ "" ∧
    ("CAM" : String) ≠ "SYNO.API.Auth" ∧
    countLogins (request ⟨"", "u", "p", []⟩
        ⟨[VendorResponse.envelope false (some 105) none,
          VendorResponse.envelope true none (some ⟨[("sid", "S1")]⟩),
          VendorResponse.envelope true none (some ⟨[]⟩)], []⟩ "CAM" "List" 1 []).2.2.trace = 1 :=
  ⟨by decide, by decide, by decide, by decide,
    (request_retry_amended ⟨"", "u", "p", []⟩
      ⟨[VendorResponse.envelope false (some 105) none,
        VendorResponse.envelope true none (some ⟨[("sid", "S1")]⟩),
        VendorResponse.envelope true none (some ⟨[]⟩)], []⟩ "CAM" "List" 1 []
      105 none
      [VendorResponse.envelope true none (some ⟨[("sid", "S1")]⟩),
       VendorResponse.envelope true none (some ⟨[]⟩)]
      rfl rfl (by decide) (by decide) (by decide) (by decide)).1⟩

/-! ### C8: session id attachment -/

/-- C8: every GET issued by `raw_request` carries exactly the parameters
built by `buildParams` from the stored session id; with an empty stored
session id those parameters contain no `_sid` key (provided the caller's
extra parameters do not themselves carry one); and after a login that
succeeds with session id `S`, the stored session id is `S` (non-empty)
and every subsequent request's parameters contain `_sid = S`. -/
theorem request_sid_attachment (s : ApiState) (w : World) (api method : String)
    (version : Int) (extra : List (String × String)) (u p S : String)
    (s2 : ApiState) (w2 : World)
    (hx : "_sid" ∉ extra.map Prod.fst)
    (hL : loginA s w u p = (Except.ok S, s2, w2)) :
    (rawRequest s w api method version extra).2.trace =
      w.trace ++ [Event.rawReq api
        (buildParams s.sid api method (getApiVersion s api (some version)) extra)] ∧
    "_sid" ∉ (buildParams "" api method (getApiVersion s api (some version)) extra).map Prod.fst ∧
    (s2.sid = S ∧ S ≠ "") ∧
    ("_sid", S) ∈ buildParams s2.sid api method (getApiVersion s2 api (some version)) extra := by
  have h3 : s2.sid = S ∧ S ≠ "" := by
    obtain ⟨resp, tr⟩ := w
    rcases resp with _ | ⟨r, rest⟩
    · rw [loginA_empty_eval _ _ _ _ rfl] at hL
      simp at hL
    · cases r with
      | httpFail =>
          rw [loginA_httpfail_eval _ _ _ _ rest rfl] at hL
          simp at hL
      | envelope succ ec d =>
          cases succ with
          | false =>
              rw [loginA_apierr_eval _ _ _ _ ec d rest rfl] at hL
              simp at hL
          | true =>
              by_cases hsid : (d.getD ⟨[]⟩).getStr "sid" = ""
              · rw [loginA_nosid_eval _ _ _ _ ec d rest rfl hsid] at hL
                simp at hL
              · rw [loginA_ok_eval _ _ _ _ ec d rest rfl hsid] at hL
                simp only [Prod.mk.injEq, Except.ok.injEq] at hL
                obtain ⟨h1, h2, _⟩ := hL
                constructor
                · rw [← h2]
                  exact h1
                · rw [← h1]
                  exact hsid
  refine ⟨rawRequest_trace s w api method version extra, ?_, h3, ?_⟩
  · simp [buildParams, hx]
  · simp [buildParams, h3.1, h3.2]

/-- Witness for C8: after the mock vendor answers the login with
`sid = "ABC123"`, the stored session id is `ABC123` and the parameter set
of a subsequent call contains `_sid = ABC123`. -/
theorem request_sid_attachment_witness :
    "_sid" ∉ (([] : List (String × String)).map Prod.fst) ∧
    (loginA ⟨"", "", "", []⟩
        ⟨[VendorResponse.envelope true none (some ⟨[("sid", "ABC123")]⟩)], []⟩ "u" "p" =
      (Except.ok "ABC123", ⟨"ABC123", "u", "p", []⟩,
        ⟨[], [Event.loginCall "u" "p",
          Event.rawReq "SYNO.API.Auth" (loginParams ⟨"", "", "", []⟩ "u" "p")]⟩)) ∧
    (((⟨"ABC123", "u", "p", []⟩ : ApiState).sid = "ABC123" ∧ ("ABC123" : String) ≠ "") ∧
      ("_sid", "ABC123") ∈ buildParams (⟨"ABC123", "u", "p", []⟩ : ApiState).sid "CAM" "List"
        (getApiVersion ⟨"ABC123", "u", "p", []⟩ "CAM" (some 1)) []) :=
  ⟨by decide, rfl,
    (request_sid_attachment ⟨"", "", "", []⟩
      ⟨[VendorResponse.envelope true none (some ⟨[("sid", "ABC123")]⟩)], []⟩ "CAM" "List" 1 []
      "u" "p" "ABC123" ⟨"ABC123", "u", "p", []⟩
      ⟨[], [Event.loginCall "u" "p",
        Event.rawReq "SYNO.API.Auth" (loginParams ⟨"", "", "", []⟩ "u" "p")]⟩
      (by decide) rfl).2.2⟩

/-! ### C6: the OTP branch of login -/

/-- C6: when the vendor answers the login call with an OTP-signalling
error code, the OTP-aware `login` surfaces `OtpRequiredError` carrying
that vendor code — a branch distinct from a plain `ApiError` and not an
`AuthError`, so the caller can prompt for a code and retry with
`otp_code` set. -/
theorem otp_required_branch (s : ApiState) (w : World) (u p otp : String) (c : Int)
    (d : Option JsonData) (rest : List VendorResponse)
    (hw : w.responses = VendorResponse.envelope false (some c) d :: rest)
    (hc : OTP_CODES.contains c = true) :
    (loginOtp s w u p otp).1 = Except.error (PyErr.otpRequired c) ∧
    isAuthErr (PyErr.otpRequired c) = false ∧
    (loginOtp s w u p otp).1 ≠ Except.error (PyErr.apiError c) := by
  have hr := rawRequest_err_eval s
    { responses := w.responses, trace := w.trace ++ [Event.loginCall u p] }
    "SYNO.API.Auth" "Login" 6
    ([("account", u), ("passwd", p), ("session", "SurveillanceStation"), ("format", "sid")]
      ++ (if otp = "" then [] else [("otp_code", otp)]))
    (some c) d rest (by simpa using hw)
  have hc2 : c ∈ OTP_CODES := by simpa using hc
  simp only [List.cons_append, List.nil_append] at hr
  have hres : (loginOtp s w u p otp).1 = Except.error (PyErr.otpRequired c) := by
    simp [loginOtp, hr, hc2]
  refine ⟨hres, rfl, ?_⟩
  rw [hres]
  simp

/-- Witness for C6: vendor code 403 (OTP required) yields
`OtpRequiredError(403)`. -/
theorem otp_required_branch_witness :
    OTP_CODES.contains (403 : Int) = true ∧
    ((loginOtp ⟨"", "", "", []⟩
        ⟨[VendorResponse.envelope false (some 403) none], []⟩ "u" "p" "").1 =
      Except.error (PyErr.otpRequired 403) ∧
    isAuthErr (PyErr.otpRequired 403) = false ∧
    (loginOtp ⟨"", "", "", []⟩
        ⟨[VendorResponse.envelope false (some 403) none], []⟩ "u" "p" "").1 ≠
      Except.error (PyErr.apiError 403)) :=
  ⟨by decide,
    otp_required_branch ⟨"", "", "", []⟩
      ⟨[VendorResponse.envelope false (some 403) none], []⟩ "u" "p" "" 403 none []
      rfl (by decide)⟩

end Surveillance
